import Mathlib

/-!
# Verification of the stream-dropper simulation core

This file is a shallow embedding of the simulation core of the
stream-dropper repository (src/code.js, latest revision: the code
preceding the first revision separator).  JavaScript numbers are
modelled as `ℚ`; booleans as `Bool`; audio cues and the
`transmitDropStatus` back-end notification hook (an empty stub in the
source) are modelled as explicit output values so that theorems can
speak about which side effects fire.  Purely visual effects (DOM/CSS
class manipulation, repositioning, sprite frames) carry no simulation
state and are not modelled; every field of the structures below is a
field written and read by the simulation logic of the source.
-/

/-- Geometry of the environment a dropper falls through.  In the source
these are `this.container.clientWidth/clientHeight` (the viewport), the
emote sprite's offset inside the dropper group (`this.emote.x/y`, set
once in the `ParachuteDropper` constructor to constants) and its
dimensions, and the target's position and dimensions (`this.target`). -/
structure Env where
  containerW : ℚ
  containerH : ℚ
  emoteX : ℚ
  emoteY : ℚ
  emoteW : ℚ
  emoteH : ℚ
  targetX : ℚ
  targetW : ℚ
  targetH : ℚ
deriving DecidableEq

/-- The configuration constants the simulation logic reads (class
`Config` in the source; sound/sprite settings are visual only and not
modelled).  `CutRange = none` models the `null` configuration. -/
structure Config where
  IdleTime : ℚ
  CutAllowed : Bool
  CutRange : Option (ℚ × ℚ)
  CutLockout : ℚ
  AbdicateAllowed : Bool
deriving DecidableEq

/-- The game configuration shipped in the repository (`config.js`):
`IdleTime = 1000 * 60 * 1.5`, `CutAllowed = true`,
`CutRange = [750, 1500]`, `CutLockout = 1080`, `AbdicateAllowed = true`. -/
def theConfig : Config :=
  { IdleTime := 90000
    CutAllowed := true
    CutRange := some (750, 1500)
    CutLockout := 1080
    AbdicateAllowed := true }

/-- The mutable simulation state of a `ParachuteDropper` (all the
fields assigned in `randomize` and mutated by the update logic). -/
structure Dropper where
  name : String
  x : ℚ
  y : ℚ
  xSpeed : ℚ
  ySpeed : ℚ
  brakeHeight : ℚ
  deployed : Bool
  landed : Bool
  cutRequested : Bool
  cutTriggered : Bool
  cutClock : ℚ
  winner : Bool
  dropComplete : Bool
  deathClock : ℚ
  dropScore : ℚ
deriving DecidableEq

/-- Center of the target (`ParachuteDropper.score`, local `midTarget`):
`this.target.x + (this.target.width / 2)`. -/
def midTarget (env : Env) : ℚ := env.targetX + env.targetW / 2

/-- Center of the dropper's emote hitbox (`ParachuteDropper.score`,
local `midEmote`): `this.x + this.emote.x + (this.emote.width / 2)`. -/
def midEmote (env : Env) (d : Dropper) : ℚ := d.x + env.emoteX + env.emoteW / 2

/-- Maximum winning center-to-center distance (`ParachuteDropper.score`,
local `maxDist`): `(this.target.width / 2) + (this.emote.width / 2)`. -/
def maxDist (env : Env) : ℚ := env.targetW / 2 + env.emoteW / 2

/-- `ParachuteDropper.score`:
`100 - ((Math.abs(midTarget - midEmote) / maxDist) * 100.0)`. -/
def Dropper.score (env : Env) (d : Dropper) : ℚ :=
  100 - |midTarget env - midEmote env d| / maxDist env * 100

/-- `ParachuteDropper.handleWin` (simulation state only): sets
`winner = true` and freezes `dropScore = this.score()`.  The winner
sound, score-box display, `transmitDropStatus(true, true)` call and
`target.addDropper(this)` registration are side effects on
collaborators; the registration is modelled at the call sites that use
the target's dropper list. -/
def Dropper.handleWin (env : Env) (d : Dropper) : Dropper :=
  { d with winner := true, dropScore := Dropper.score env d }

/-- `ParachuteDropper.handleLose` (simulation state only): sets
`winner = false`; the `loser`/`ghost` CSS toggles are visual. -/
def Dropper.handleLose (d : Dropper) : Dropper :=
  { d with winner := false }

/-- Notification payload of `ParachuteDropper.transmitDropStatus` — the
source's hook has an empty body, so the payload of each call is the
observable effect. -/
structure Notif where
  name : String
  onTarget : Bool
  winner : Bool
  voluntary : Bool
deriving DecidableEq

/-- `Target.ditchLoser(dropper, voluntary)`: demotes the dropper via
`handleLose` and emits `transmitDropStatus(true, false, voluntary)`. -/
def Target.ditchLoser (d : Dropper) (voluntary : Bool) : Dropper × Notif :=
  (Dropper.handleLose d,
   { name := d.name, onTarget := true, winner := false, voluntary := voluntary })

/-- The scan loop of `Target.update`: walks the landed droppers in
order, keeping the running maximum (`highDropper`, `none` before the
first element) and ditching every dropper found not to be the running
maximum (the `ditchLoser` calls, accumulated in order in the second
component). -/
def Target.arbLoop :
    List Dropper → Option Dropper → List (Dropper × Notif) →
      Option Dropper × List (Dropper × Notif)
  | [], high, acc => (high, acc)
  | d :: rest, none, acc => Target.arbLoop rest (some d) acc
  | d :: rest, some h, acc =>
    if d.dropScore > h.dropScore then
      Target.arbLoop rest (some d) (acc ++ [Target.ditchLoser h false])
    else
      Target.arbLoop rest (some h) (acc ++ [Target.ditchLoser d false])

/-- `Target.update(deltaT)`: when more than one dropper sits on the
target, scan for the highest `dropScore`, demote all others, and
replace the list with the singleton of the high scorer
(`this.droppers.length = 0; this.droppers.push(highDropper)`).  The
first component is the dropper list after the call, the second the
`ditchLoser` results (demoted dropper states and their notifications)
in the order they fired.  `deltaT` is unused in the source as well. -/
def Target.update (deltaT : ℚ) (ds : List Dropper) : List Dropper × List (Dropper × Notif) :=
  if 1 < ds.length then
    match Target.arbLoop ds none [] with
    | (high, ditched) => (high.toList, ditched)
  else (ds, [])

lemma Target.arbLoop_fst_eq (ds : List Dropper) (high : Option Dropper)
    (acc acc' : List (Dropper × Notif)) :
    (Target.arbLoop ds high acc).1 = (Target.arbLoop ds high acc').1 := by
  induction ds generalizing high acc acc' with
  | nil => rfl
  | cons d rest ih =>
    cases high with
    | none => simpa [Target.arbLoop] using ih (some d) acc acc'
    | some h =>
      by_cases hgt : d.dropScore > h.dropScore
      · simpa [Target.arbLoop, hgt] using ih (some d) _ _
      · simpa [Target.arbLoop, hgt] using ih (some h) _ _

lemma Target.arbLoop_max (ds : List Dropper) (high : Option Dropper)
    (acc : List (Dropper × Notif)) (h : Dropper)
    (hres : (Target.arbLoop ds high acc).1 = some h) :
    (∀ d ∈ ds, d.dropScore ≤ h.dropScore) ∧
      (∀ h0, high = some h0 → h0.dropScore ≤ h.dropScore) := by
  induction ds generalizing high acc with
  | nil =>
    simp only [Target.arbLoop] at hres
    refine ⟨by simp, ?_⟩
    intro h0 hh0
    rw [hh0] at hres
    cases hres
    exact le_refl _
  | cons d rest ih =>
    cases high with
    | none =>
      simp only [Target.arbLoop] at hres
      obtain ⟨hrest, hhigh⟩ := ih (some d) acc hres
      refine ⟨?_, by simp⟩
      intro e he
      rcases List.mem_cons.mp he with rfl | he
      · exact hhigh e rfl
      · exact hrest e he
    | some h0 =>
      by_cases hgt : d.dropScore > h0.dropScore
      · simp only [Target.arbLoop, if_pos hgt] at hres
        obtain ⟨hrest, hhigh⟩ := ih (some d) _ hres
        have hd : d.dropScore ≤ h.dropScore := hhigh d rfl
        refine ⟨?_, ?_⟩
        · intro e he
          rcases List.mem_cons.mp he with rfl | he
          · exact hd
          · exact hrest e he
        · intro h1 hh1
          cases hh1
          exact le_trans (le_of_lt hgt) hd
      · simp only [Target.arbLoop, if_neg hgt] at hres
        obtain ⟨hrest, hhigh⟩ := ih (some h0) _ hres
        have hh0 : h0.dropScore ≤ h.dropScore := hhigh h0 rfl
        refine ⟨?_, ?_⟩
        · intro e he
          rcases List.mem_cons.mp he with rfl | he
          · exact le_trans (le_of_not_lt hgt) hh0
          · exact hrest e he
        · intro h1 hh1
          cases hh1
          exact hh0

/-- Claim C1: after a single `Target.update(deltaT)` call, the
landed-dropper collection holds at most one dropper, and if it is
non-empty, that dropper's `dropScore` is at least the `dropScore` of
every dropper that was in the collection when the call began. -/
theorem target_update_single_max (deltaT : ℚ) (ds : List Dropper)
    (h : Dropper) (hmem : h ∈ (Target.update deltaT ds).1)
    (d : Dropper) (hd : d ∈ ds) :
    (Target.update deltaT ds).1.length ≤ 1 ∧ d.dropScore ≤ h.dropScore := by
  unfold Target.update at hmem ⊢
  by_cases hlen : 1 < ds.length
  · rw [if_pos hlen] at hmem ⊢
    constructor
    · cases hhi : (Target.arbLoop ds none []).1 <;> simp [hhi]
    · have : h ∈ (Target.arbLoop ds none []).1.toList := by
        cases harb : Target.arbLoop ds none [] with
        | mk hi di => simpa [harb] using hmem
      have hres : (Target.arbLoop ds none []).1 = some h := by
        cases hhi : (Target.arbLoop ds none []).1 <;> simp [hhi] at this
        · rw [this]
      exact (Target.arbLoop_max ds none [] h hres).1 d hd
  · rw [if_neg hlen] at hmem ⊢
    have hmem' : h ∈ ds := hmem
    refine ⟨by show ds.length ≤ 1; omega, ?_⟩
    rcases ds with _ | ⟨a, _ | ⟨b, rest⟩⟩
    · simp at hd
    · simp at hmem' hd
      rw [hmem', hd]
    · simp only [List.length_cons] at hlen
      omega

/-- Witness for C1 at a concrete two-dropper collection. -/
def dropA : Dropper :=
  { name := "alice", x := 700, y := 891, xSpeed := 3, ySpeed := 1,
    brakeHeight := 5, deployed := true, landed := true,
    cutRequested := false, cutTriggered := false, cutClock := 800,
    winner := true, dropComplete := false, deathClock := 0, dropScore := 80 }

def dropB : Dropper :=
  { name := "bob", x := 760, y := 892, xSpeed := -3, ySpeed := 1,
    brakeHeight := 6, deployed := true, landed := true,
    cutRequested := false, cutTriggered := false, cutClock := 900,
    winner := true, dropComplete := false, deathClock := 0, dropScore := 95 }

theorem target_update_single_max_witness :
    (Target.update 16 [dropA, dropB]).1.length ≤ 1 ∧
      dropA.dropScore ≤ dropB.dropScore :=
  target_update_single_max 16 [dropA, dropB] dropB (by decide) dropA (by decide)

/-- Claim C5: two droppers with equal `dropScore` added in order A then
B: arbitration keeps exactly A (unchanged, so A keeps its winner
status) and ditches exactly B (B is demoted via `handleLose` and B's
displacement is notified). -/
theorem tie_break_first_wins (deltaT : ℚ) (a b : Dropper)
    (h : a.dropScore = b.dropScore) :
    Target.update deltaT [a, b] = ([a], [Target.ditchLoser b false]) := by
  have hnot : ¬ b.dropScore > a.dropScore := by rw [h]; exact lt_irrefl _
  simp [Target.update, Target.arbLoop, hnot]

/-- Witness for C5: a concrete equal-score pair. -/
def dropBtie : Dropper := { dropB with dropScore := 80 }

theorem tie_break_first_wins_witness :
    Target.update 16 [dropA, dropBtie] = ([dropA], [Target.ditchLoser dropBtie false]) :=
  tie_break_first_wins 16 dropA dropBtie (by decide)

/-- Claim C10: when the landed collection holds at most one dropper,
`Target.update` changes nothing: the collection is returned unchanged,
no dropper is demoted and no notification fires. -/
theorem target_update_small_noop (deltaT : ℚ) (ds : List Dropper)
    (h : ds.length ≤ 1) :
    Target.update deltaT ds = (ds, []) := by
  unfold Target.update
  rw [if_neg (by omega)]

/-- Witness for C10: a sole winner sitting on the target is untouched. -/
theorem target_update_small_noop_witness :
    Target.update 16 [dropA] = ([dropA], []) :=
  target_update_small_noop 16 [dropA] (by decide)

/-- `ParachuteDropper.landed_update(deltaT)`: only a landed non-winner
that is not yet complete counts up its death clock; at 5000 ms it
becomes `dropComplete` (the `reap`/`ghost` class toggles are visual). -/
def Dropper.landed_update (deltaT : ℚ) (d : Dropper) : Dropper :=
  if d.winner = true ∨ d.dropComplete = true then d
  else
    if d.deathClock + deltaT ≥ 5 * 1000 then
      { d with deathClock := d.deathClock + deltaT, dropComplete := true }
    else
      { d with deathClock := d.deathClock + deltaT }

/-- `ParachuteDropper.cut_update(deltaT)`: count the cut clock down;
once it reaches `≤ 0` the cut actually triggers (the `sway` removal and
parachute release are visual). -/
def Dropper.cut_update (deltaT : ℚ) (d : Dropper) : Dropper :=
  if d.cutClock - deltaT ≤ 0 then
    { d with cutClock := d.cutClock - deltaT, cutTriggered := true }
  else
    { d with cutClock := d.cutClock - deltaT }

/-- `ParachuteDropper.deploy_chute(deltaT)`: marks the chute deployed
(the rest of the method is animation and sound). -/
def Dropper.deploy_chute (d : Dropper) : Dropper :=
  { d with deployed := true }

/-- `ParachuteDropper.land(deltaT)`: marks the dropper landed (the land
sound and class changes are side effects on collaborators). -/
def Dropper.land (d : Dropper) : Dropper :=
  { d with landed := true }

/-- Audio cues fired by `cut_chute`. -/
inductive Sound where
  | buzz : Sound
  | snip : Sound
deriving DecidableEq

/-- `ParachuteDropper.cut_chute()`: rejected iff a cut was already
requested or the dropper is below the cut lockout height
(`this.y > Config.CutLockout`); on rejection the buzz cue fires only
when the dropper has not landed.  Otherwise the snip cue fires and
`cutRequested` is set.  Note the source does NOT reject merely because
the dropper has landed. -/
def Dropper.cut_chute (cfg : Config) (d : Dropper) : Dropper × List Sound :=
  if d.cutRequested = true ∨ d.y > cfg.CutLockout then
    (d, if d.landed = false then [Sound.buzz] else [])
  else
    ({ d with cutRequested := true }, [Sound.snip])

/-- `ParachuteDropper.update`, cut-clock step: `if (this.cutRequested
=== true && this.cutTriggered === false) this.cut_update(deltaT)`. -/
def cutPhase (deltaT : ℚ) (d : Dropper) : Dropper :=
  if d.cutRequested = true ∧ d.cutTriggered = false then Dropper.cut_update deltaT d else d

/-- `ParachuteDropper.update`, integration step:
`this.x += this.xSpeed; this.y += this.ySpeed`. -/
def movePhase (d : Dropper) : Dropper :=
  { d with x := d.x + d.xSpeed, y := d.y + d.ySpeed }

/-- `ParachuteDropper.update`, braking step: past the brake height and
above the `0.5` floor, an uncut dropper divides `ySpeed` by `1.05`. -/
def brakePhase (d : Dropper) : Dropper :=
  if d.cutTriggered = false ∧ d.y ≥ d.brakeHeight ∧ d.ySpeed > 0.5 then
    { d with ySpeed := d.ySpeed / 1.05 }
  else d

/-- `ParachuteDropper.update`, terminal-velocity step: a cut dropper
with `ySpeed < 12` multiplies `ySpeed` by `1.08`. -/
def accelPhase (d : Dropper) : Dropper :=
  if d.cutTriggered = true ∧ d.ySpeed < 12 then
    { d with ySpeed := d.ySpeed * 1.08 }
  else d

/-- `ParachuteDropper.update`, deployment step: not yet deployed, no
cut requested, and on screen (`y >= 0`) deploys the chute. -/
def deployPhase (d : Dropper) : Dropper :=
  if d.deployed = false ∧ d.cutRequested = false ∧ d.y ≥ 0 then Dropper.deploy_chute d else d

/-- `ParachuteDropper.update`, edge bounce: if the emote hitbox
(`emoteX = this.x + this.emote.x`, unchanged by the previous phases)
touches the left or right viewport edge, negate `xSpeed`. -/
def bouncePhase (env : Env) (d : Dropper) : Dropper :=
  if d.x + env.emoteX ≤ 0 ∨ d.x + env.emoteX ≥ env.containerW - env.emoteW then
    { d with xSpeed := -1 * d.xSpeed }
  else d

/-- `ParachuteDropper.update`, landing step: when the emote bottom
(`emoteY = this.y + this.emote.y`, unchanged by the previous phases)
reaches the landing plane, `land()` fires and the dropper becomes a
winner iff its emote hitbox overlaps the target horizontally
(`emoteX > target.x - emote.width && emoteX < target.x + target.width`);
otherwise `handleLose` (and a `transmitDropStatus(false, false)` to the
back end, which is an empty stub). -/
def landPhase (env : Env) (d : Dropper) : Dropper :=
  if d.y + env.emoteY ≥ env.containerH - env.emoteH - 0.25 * env.targetH then
    if d.x + env.emoteX > env.targetX - env.emoteW ∧
        d.x + env.emoteX < env.targetX + env.targetW then
      Dropper.handleWin env (Dropper.land d)
    else
      Dropper.handleLose (Dropper.land d)
  else d

/-- `ParachuteDropper.update(deltaT)`: a landed dropper only runs
`landed_update`; otherwise the frame is the source's statement sequence
(cut clock, integration, braking, terminal velocity, deployment,
bounce, landing check) in order. -/
def Dropper.update (env : Env) (deltaT : ℚ) (d : Dropper) : Dropper :=
  if d.landed = true then Dropper.landed_update deltaT d
  else
    landPhase env (bouncePhase env (deployPhase (accelPhase (brakePhase (movePhase (cutPhase deltaT d))))))

/-- Iterated frames: `update` applied over a list of frame deltas. -/
def iterUpdates (env : Env) (dts : List ℚ) (d : Dropper) : Dropper :=
  dts.foldl (fun s dt => Dropper.update env dt s) d

/-! ## Frame lemmas for the fall phases -/

lemma cutPhase_ySpeed (deltaT : ℚ) (d : Dropper) : (cutPhase deltaT d).ySpeed = d.ySpeed := by
  unfold cutPhase Dropper.cut_update
  split_ifs <;> rfl

lemma movePhase_ySpeed (d : Dropper) : (movePhase d).ySpeed = d.ySpeed := rfl

lemma deployPhase_ySpeed (d : Dropper) : (deployPhase d).ySpeed = d.ySpeed := by
  unfold deployPhase Dropper.deploy_chute
  split_ifs <;> rfl

lemma bouncePhase_ySpeed (env : Env) (d : Dropper) : (bouncePhase env d).ySpeed = d.ySpeed := by
  unfold bouncePhase
  split_ifs <;> rfl

lemma landPhase_ySpeed (env : Env) (d : Dropper) : (landPhase env d).ySpeed = d.ySpeed := by
  unfold landPhase Dropper.handleWin Dropper.handleLose Dropper.land
  split_ifs <;> rfl

lemma landed_update_ySpeed (deltaT : ℚ) (d : Dropper) :
    (Dropper.landed_update deltaT d).ySpeed = d.ySpeed := by
  unfold Dropper.landed_update
  split_ifs <;> rfl

lemma brakePhase_ySpeed_lt (d : Dropper) (h : d.ySpeed < 1296 / 100) :
    (brakePhase d).ySpeed < 1296 / 100 := by
  unfold brakePhase
  split_ifs with hb
  · have hpos : (0 : ℚ) < d.ySpeed := lt_trans (by norm_num) hb.2.2
    calc d.ySpeed / 1.05 < d.ySpeed := div_lt_self hpos (by norm_num)
    _ < 1296 / 100 := h
  · exact h

lemma accelPhase_ySpeed_lt (d : Dropper) (h : d.ySpeed < 1296 / 100) :
    (accelPhase d).ySpeed < 1296 / 100 := by
  unfold accelPhase
  split_ifs with ha
  · have : d.ySpeed * 1.08 < 12 * 1.08 := by
      have h12 := ha.2
      nlinarith
    calc d.ySpeed * (1.08 : ℚ) < 12 * 1.08 := this
    _ = 1296 / 100 := by norm_num
  · exact h

/-- The terminal-velocity bound is preserved by every frame: all the
`ySpeed` writes in `update` either divide a positive speed by `1.05` or
multiply a speed `< 12` by `1.08`. -/
lemma update_ySpeed_lt (env : Env) (deltaT : ℚ) (d : Dropper)
    (h : d.ySpeed < 1296 / 100) :
    (Dropper.update env deltaT d).ySpeed < 1296 / 100 := by
  unfold Dropper.update
  split_ifs with hld
  · rw [landed_update_ySpeed]; exact h
  · rw [landPhase_ySpeed, bouncePhase_ySpeed, deployPhase_ySpeed]
    apply accelPhase_ySpeed_lt
    apply brakePhase_ySpeed_lt
    rw [movePhase_ySpeed, cutPhase_ySpeed]
    exact h

/-! ## The flag invariants of the dropper state machine -/

/-- The three flag invariants of the spec: a triggered cut was
requested; a winner has landed; a completed drop has landed and is not
a winner. -/
def FlagInv (d : Dropper) : Prop :=
  (d.cutTriggered = true → d.cutRequested = true) ∧
  (d.winner = true → d.landed = true) ∧
  (d.dropComplete = true → d.landed = true ∧ d.winner = false)

lemma cutPhase_flagInv (deltaT : ℚ) (d : Dropper) (h : FlagInv d) :
    FlagInv (cutPhase deltaT d) := by
  unfold FlagInv cutPhase Dropper.cut_update at *
  split_ifs <;> simp_all

lemma movePhase_flagInv (d : Dropper) (h : FlagInv d) : FlagInv (movePhase d) := h

lemma brakePhase_flagInv (d : Dropper) (h : FlagInv d) : FlagInv (brakePhase d) := by
  unfold FlagInv brakePhase at *
  split_ifs <;> simp_all

lemma accelPhase_flagInv (d : Dropper) (h : FlagInv d) : FlagInv (accelPhase d) := by
  unfold FlagInv accelPhase at *
  split_ifs <;> simp_all

lemma deployPhase_flagInv (d : Dropper) (h : FlagInv d) : FlagInv (deployPhase d) := by
  unfold FlagInv deployPhase Dropper.deploy_chute at *
  split_ifs <;> simp_all

lemma bouncePhase_flagInv (env : Env) (d : Dropper) (h : FlagInv d) :
    FlagInv (bouncePhase env d) := by
  unfold FlagInv bouncePhase at *
  split_ifs <;> simp_all

lemma landPhase_flagInv (env : Env) (d : Dropper) (h : FlagInv d)
    (hdc : d.dropComplete = false) : FlagInv (landPhase env d) := by
  unfold FlagInv landPhase Dropper.handleWin Dropper.handleLose Dropper.land at *
  split_ifs <;> simp_all

lemma landed_update_flagInv (deltaT : ℚ) (d : Dropper) (h : FlagInv d)
    (hld : d.landed = true) : FlagInv (Dropper.landed_update deltaT d) := by
  unfold FlagInv Dropper.landed_update at *
  split_ifs <;> simp_all

lemma cutPhase_dropComplete (deltaT : ℚ) (d : Dropper) :
    (cutPhase deltaT d).dropComplete = d.dropComplete := by
  unfold cutPhase Dropper.cut_update
  split_ifs <;> rfl

lemma movePhase_dropComplete (d : Dropper) : (movePhase d).dropComplete = d.dropComplete := rfl

lemma brakePhase_dropComplete (d : Dropper) :
    (brakePhase d).dropComplete = d.dropComplete := by
  unfold brakePhase
  split_ifs <;> rfl

lemma accelPhase_dropComplete (d : Dropper) :
    (accelPhase d).dropComplete = d.dropComplete := by
  unfold accelPhase
  split_ifs <;> rfl

lemma deployPhase_dropComplete (d : Dropper) :
    (deployPhase d).dropComplete = d.dropComplete := by
  unfold deployPhase Dropper.deploy_chute
  split_ifs <;> rfl

lemma bouncePhase_dropComplete (env : Env) (d : Dropper) :
    (bouncePhase env d).dropComplete = d.dropComplete := by
  unfold bouncePhase
  split_ifs <;> rfl

/-- Every frame preserves the three flag invariants. -/
lemma update_flagInv (env : Env) (deltaT : ℚ) (d : Dropper) (h : FlagInv d) :
    FlagInv (Dropper.update env deltaT d) := by
  unfold Dropper.update
  split_ifs with hld
  · exact landed_update_flagInv deltaT d h hld
  · have hdc : d.dropComplete = false := by
      cases hb : d.dropComplete
      · rfl
      · exact absurd (h.2.2 hb).1 hld
    apply landPhase_flagInv
    · exact bouncePhase_flagInv env _ (deployPhase_flagInv _ (accelPhase_flagInv _
        (brakePhase_flagInv _ (movePhase_flagInv _ (cutPhase_flagInv deltaT d h)))))
    · rw [bouncePhase_dropComplete, deployPhase_dropComplete, accelPhase_dropComplete,
        brakePhase_dropComplete, movePhase_dropComplete, cutPhase_dropComplete]
      exact hdc

/-! ## Spawn randomization and reachability -/

/-- `ParachuteDropper.randomize(name)` (simulation state only): the
random draws are passed in as parameters — `brakeH` for
`randomIntInRange(1, 8)`, `cutClk` for the `CutRange` draw, `x0` for
the spawn abscissa, `xs0`/`ys0` for `randomFloatInRange(3, 5)` and
`randomFloatInRange(8, 10)`, and `flip` for the 50/50 direction flip.
`RandomizeValid` states the ranges those draws come from. -/
def Dropper.randomize (cfg : Config) (name : String)
    (brakeH cutClk x0 xs0 ys0 : ℚ) (flip : Bool) : Dropper :=
  { name := name
    x := x0
    y := -162
    xSpeed := if flip then -xs0 else xs0
    ySpeed := ys0
    brakeHeight := brakeH
    deployed := false
    landed := false
    cutRequested := false
    cutTriggered := false
    cutClock := match cfg.CutRange with | none => 0 | some _ => cutClk
    winner := false
    dropComplete := false
    deathClock := 0
    dropScore := 0 }

/-- The ranges of the random draws of `randomize`: `brakeHeight` from
`randomIntInRange(1, 8)`; the cut clock from the configured `CutRange`
(or `0` when the range is `null`); the spawn abscissa between the edge
offsets `Math.round(containerW / 7) * 2`; `xSpeed` from
`randomFloatInRange(3, 5)` and `ySpeed` from `randomFloatInRange(8, 10)`
(`Math.random()` is in `[0, 1)`, so the draws are in `[lo, hi)`).
Integrality of the integer draws is not needed by any claim and is
not recorded. -/
def RandomizeValid (env : Env) (cfg : Config)
    (brakeH cutClk x0 xs0 ys0 : ℚ) : Prop :=
  1 ≤ brakeH ∧ brakeH ≤ 8 ∧
  (match cfg.CutRange with
   | none => cutClk = 0
   | some r => r.1 ≤ cutClk ∧ cutClk ≤ r.2) ∧
  ((round (env.containerW / 7) : ℚ) * 2 ≤ x0 ∧
    x0 ≤ env.containerW - (round (env.containerW / 7) : ℚ) * 2) ∧
  3 ≤ xs0 ∧ xs0 < 5 ∧ 8 ≤ ys0 ∧ ys0 < 10

/-- One externally-triggered transition on a dropper: a frame of
`update(deltaT)` (which runs `landed_update`, `cut_update`,
`deploy_chute`, `land`, `handleWin` and `handleLose` internally at
exactly the source's call sites), a `cut_chute()` command, or a
demotion through `handleLose` (how `Target.update` arbitration and
`abdicateDropper` touch a dropper's state). -/
inductive DStep (env : Env) (cfg : Config) : Dropper → Dropper → Prop where
  | update_step (deltaT : ℚ) (d : Dropper) : DStep env cfg d (Dropper.update env deltaT d)
  | cut_step (d : Dropper) : DStep env cfg d (Dropper.cut_chute cfg d).1
  | lose_step (d : Dropper) : DStep env cfg d (Dropper.handleLose d)

/-- Dropper states reachable from a (re-)spawn through any sequence of
transitions. -/
inductive Reach (env : Env) (cfg : Config) : Dropper → Prop where
  | init (name : String) (brakeH cutClk x0 xs0 ys0 : ℚ) (flip : Bool)
      (h : RandomizeValid env cfg brakeH cutClk x0 xs0 ys0) :
      Reach env cfg (Dropper.randomize cfg name brakeH cutClk x0 xs0 ys0 flip)
  | step (d e : Dropper) (hd : Reach env cfg d) (hs : DStep env cfg d e) : Reach env cfg e

lemma randomize_flagInv (cfg : Config) (name : String)
    (brakeH cutClk x0 xs0 ys0 : ℚ) (flip : Bool) :
    FlagInv (Dropper.randomize cfg name brakeH cutClk x0 xs0 ys0 flip) := by
  unfold FlagInv Dropper.randomize
  simp

lemma cut_chute_flagInv (cfg : Config) (d : Dropper) (h : FlagInv d) :
    FlagInv (Dropper.cut_chute cfg d).1 := by
  unfold FlagInv Dropper.cut_chute at *
  split_ifs <;> simp_all

lemma handleLose_flagInv (d : Dropper) (h : FlagInv d) :
    FlagInv (Dropper.handleLose d) := by
  unfold FlagInv Dropper.handleLose at *
  simp_all

lemma reach_flagInv (env : Env) (cfg : Config) (d : Dropper)
    (h : Reach env cfg d) : FlagInv d := by
  induction h with
  | init name brakeH cutClk x0 xs0 ys0 flip hv => exact randomize_flagInv ..
  | step d e hd hs ih =>
    cases hs with
    | update_step deltaT d => exact update_flagInv env deltaT d ih
    | cut_step d => exact cut_chute_flagInv cfg d ih
    | lose_step d => exact handleLose_flagInv d ih

lemma cut_chute_ySpeed (cfg : Config) (d : Dropper) :
    (Dropper.cut_chute cfg d).1.ySpeed = d.ySpeed := by
  unfold Dropper.cut_chute
  split_ifs <;> rfl

lemma reach_ySpeed_lt (env : Env) (cfg : Config) (d : Dropper)
    (h : Reach env cfg d) : d.ySpeed < 1296 / 100 := by
  induction h with
  | init name brakeH cutClk x0 xs0 ys0 flip hv =>
    have h10 : ys0 < 10 := hv.2.2.2.2.2.2.2
    show ys0 < 1296 / 100
    linarith
  | step d e hd hs ih =>
    cases hs with
    | update_step deltaT d => exact update_ySpeed_lt env deltaT d ih
    | cut_step d => rw [cut_chute_ySpeed]; exact ih
    | lose_step d => exact ih

/-- Claim C6: in every dropper state reachable from `randomize()`
through any sequence of the dropper transitions (frames of `update`,
`cut_chute` commands, and the `handleLose` demotions performed by
Target arbitration and abdication — `landed_update` and `handleWin`
run inside `update` at exactly their source call sites), a triggered
cut implies a requested cut, a winner has landed, and a completed drop
has landed and is not a winner. -/
theorem reachable_flag_invariants (env : Env) (cfg : Config) (d : Dropper)
    (h : Reach env cfg d) :
    (d.cutTriggered = true → d.cutRequested = true) ∧
    (d.winner = true → d.landed = true) ∧
    (d.dropComplete = true → d.landed = true ∧ d.winner = false) :=
  reach_flagInv env cfg d h

/-- A concrete environment: a 1920 x 1080 viewport, the emote offset
`(32, 106)` and dimensions `56 x 56` fixed by the dropper constructor,
and a target of sprite size `390 x 110` at `x = 700`. -/
def env0 : Env :=
  { containerW := 1920
    containerH := 1080
    emoteX := 32
    emoteY := 106
    emoteW := 56
    emoteH := 56
    targetX := 700
    targetW := 390
    targetH := 110 }

/-- A freshly spawned dropper with concrete in-range draws. -/
def dInit : Dropper :=
  Dropper.randomize theConfig "carol" 5 1000 800 4 9 false

lemma randomizeValid_concrete : RandomizeValid env0 theConfig 5 1000 800 4 9 := by
  have hr : round ((1920 : ℚ) / 7) = 274 := by norm_num [round_eq]
  unfold RandomizeValid
  refine ⟨by norm_num, by norm_num, ⟨by norm_num, by norm_num⟩, ⟨?_, ?_⟩,
    by norm_num, by norm_num, by norm_num, by norm_num⟩
  · show ((round (env0.containerW / 7) : ℤ) : ℚ) * 2 ≤ 800
    have he : env0.containerW = 1920 := rfl
    rw [he, hr]
    norm_num
  · show (800 : ℚ) ≤ env0.containerW - ((round (env0.containerW / 7) : ℤ) : ℚ) * 2
    have he : env0.containerW = 1920 := rfl
    rw [he, hr]
    norm_num

/-- Witness for C6: the invariants hold at a concrete spawned state. -/
theorem reachable_flag_invariants_witness :
    (dInit.cutTriggered = true → dInit.cutRequested = true) ∧
    (dInit.winner = true → dInit.landed = true) ∧
    (dInit.dropComplete = true → dInit.landed = true ∧ dInit.winner = false) :=
  reachable_flag_invariants env0 theConfig dInit
    (Reach.init "carol" 5 1000 800 4 9 false randomizeValid_concrete)

/-- Claim C9: in every dropper state reachable from `randomize()`
through updates and cut commands (demotions included), `ySpeed` stays
strictly below `12.96 = 12 * 1.08`: the spawn speed is below 10,
braking only divides by `1.05`, and the post-cut multiplication by
`1.08` only fires when `ySpeed < 12`. -/
theorem reachable_yspeed_bound (env : Env) (cfg : Config) (d : Dropper)
    (h : Reach env cfg d) : d.ySpeed < 1296 / 100 :=
  reach_ySpeed_lt env cfg d h

/-- Witness for C9 at the same concrete spawned state. -/
theorem reachable_yspeed_bound_witness : dInit.ySpeed < 1296 / 100 :=
  reachable_yspeed_bound env0 theConfig dInit
    (Reach.init "carol" 5 1000 800 4 9 false randomizeValid_concrete)

/-! ## Claim C2: the post-cut terminal velocity -/

/-- A cut-triggered dropper in free fall over the screen (a state of
the source's cut free-fall phase). -/
def d2cex : Dropper :=
  { name := "dora", x := 500, y := 0, xSpeed := 4, ySpeed := 9,
    brakeHeight := 5, deployed := true, landed := false,
    cutRequested := true, cutTriggered := true, cutClock := 0,
    winner := false, dropComplete := false, deathClock := 0, dropScore := 0 }

/-- Claim C2 counterexample: a cut-triggered dropper with `ySpeed = 9`
(reachable after a cut, since spawn speeds lie in `[8, 10)`) exceeds 12
after four frames: `9 * 1.08 ^ 4 = 12.24440064 > 12`.  The guard
`ySpeed < 12` lets the final multiplication by `1.08` overshoot the
cap. -/
theorem cut_terminal_overshoot_cex :
    d2cex.cutTriggered = true ∧
      12 < (iterUpdates env0 [16, 16, 16, 16] d2cex).ySpeed := by
  refine ⟨rfl, ?_⟩
  norm_num [iterUpdates, List.foldl, Dropper.update, Dropper.landed_update, cutPhase,
    Dropper.cut_update, movePhase, brakePhase, accelPhase, deployPhase, Dropper.deploy_chute,
    bouncePhase, landPhase, Dropper.handleWin, Dropper.handleLose, Dropper.land,
    Dropper.score, midTarget, midEmote, maxDist, d2cex, env0]

/-- Claim C2 (amended): once cut-triggered, `ySpeed` never exceeds
`12.96 = 12 * 1.08` (rather than 12): a frame multiplies by `1.08` only
when `ySpeed < 12`, so the speed stays strictly below `12.96` over any
number of subsequent `update(deltaT)` calls, whatever the frame
deltas.  (Every reachable speed is below `12.96`; see C9.) -/
theorem cut_terminal_bound (env : Env) (d : Dropper)
    (hcut : d.cutTriggered = true) (h : d.ySpeed < 1296 / 100)
    (dts : List ℚ) :
    (iterUpdates env dts d).ySpeed < 1296 / 100 := by
  clear hcut
  induction dts generalizing d with
  | nil => exact h
  | cons dt dts ih => exact ih (Dropper.update env dt d) (update_ySpeed_lt env dt d h)

/-- Witness for the amended C2 at the concrete cut dropper. -/
theorem cut_terminal_bound_witness :
    (iterUpdates env0 [16, 16, 16, 16, 16] d2cex).ySpeed < 1296 / 100 :=
  cut_terminal_bound env0 d2cex rfl (by norm_num [d2cex]) [16, 16, 16, 16, 16]

/-! ## Claim C3: the win/lose determination at landing -/

lemma cutPhase_x (deltaT : ℚ) (d : Dropper) : (cutPhase deltaT d).x = d.x := by
  unfold cutPhase Dropper.cut_update
  split_ifs <;> rfl

lemma cutPhase_y (deltaT : ℚ) (d : Dropper) : (cutPhase deltaT d).y = d.y := by
  unfold cutPhase Dropper.cut_update
  split_ifs <;> rfl

lemma cutPhase_xSpeed (deltaT : ℚ) (d : Dropper) : (cutPhase deltaT d).xSpeed = d.xSpeed := by
  unfold cutPhase Dropper.cut_update
  split_ifs <;> rfl

lemma movePhase_x (d : Dropper) : (movePhase d).x = d.x + d.xSpeed := rfl

lemma movePhase_y (d : Dropper) : (movePhase d).y = d.y + d.ySpeed := rfl

lemma brakePhase_x (d : Dropper) : (brakePhase d).x = d.x := by
  unfold brakePhase
  split_ifs <;> rfl

lemma brakePhase_y (d : Dropper) : (brakePhase d).y = d.y := by
  unfold brakePhase
  split_ifs <;> rfl

lemma accelPhase_x (d : Dropper) : (accelPhase d).x = d.x := by
  unfold accelPhase
  split_ifs <;> rfl

lemma accelPhase_y (d : Dropper) : (accelPhase d).y = d.y := by
  unfold accelPhase
  split_ifs <;> rfl

lemma deployPhase_x (d : Dropper) : (deployPhase d).x = d.x := by
  unfold deployPhase Dropper.deploy_chute
  split_ifs <;> rfl

lemma deployPhase_y (d : Dropper) : (deployPhase d).y = d.y := by
  unfold deployPhase Dropper.deploy_chute
  split_ifs <;> rfl

lemma bouncePhase_x (env : Env) (d : Dropper) : (bouncePhase env d).x = d.x := by
  unfold bouncePhase
  split_ifs <;> rfl

lemma bouncePhase_y (env : Env) (d : Dropper) : (bouncePhase env d).y = d.y := by
  unfold bouncePhase
  split_ifs <;> rfl

lemma fall_x (env : Env) (deltaT : ℚ) (d : Dropper) :
    (bouncePhase env (deployPhase (accelPhase (brakePhase (movePhase (cutPhase deltaT d)))))).x
      = d.x + d.xSpeed := by
  rw [bouncePhase_x, deployPhase_x, accelPhase_x, brakePhase_x, movePhase_x,
    cutPhase_x, cutPhase_xSpeed]

lemma fall_y (env : Env) (deltaT : ℚ) (d : Dropper) :
    (bouncePhase env (deployPhase (accelPhase (brakePhase (movePhase (cutPhase deltaT d)))))).y
      = d.y + d.ySpeed := by
  rw [bouncePhase_y, deployPhase_y, accelPhase_y, brakePhase_y, movePhase_y,
    cutPhase_y, cutPhase_ySpeed]

/-- Claim C3: at the frame in which the landing condition fires (the
landing plane test uses the altitude after integration,
`y + ySpeed`), the dropper lands, and it becomes a winner iff its
emote hitbox span overlaps the target span — `hitboxLeft < targetRight`
and `hitboxRight > targetLeft`, with `hitboxLeft = x + emote.x` at the
landing frame (`x + xSpeed` in terms of the pre-frame state),
`hitboxRight = hitboxLeft + emote.width`, `targetLeft = target.x`,
`targetRight = target.x + target.width`; otherwise it becomes a
loser. -/
theorem landing_win_iff_overlap (env : Env) (deltaT : ℚ) (d : Dropper)
    (h0 : d.landed = false)
    (hl : d.y + d.ySpeed + env.emoteY ≥ env.containerH - env.emoteH - 0.25 * env.targetH) :
    (Dropper.update env deltaT d).landed = true ∧
      ((Dropper.update env deltaT d).winner = true ↔
        (d.x + d.xSpeed + env.emoteX < env.targetX + env.targetW ∧
          d.x + d.xSpeed + env.emoteX + env.emoteW > env.targetX)) := by
  have hkey : ∀ s : Dropper, s.x = d.x + d.xSpeed → s.y = d.y + d.ySpeed →
      (landPhase env s).landed = true ∧
        ((landPhase env s).winner = true ↔
          (d.x + d.xSpeed + env.emoteX < env.targetX + env.targetW ∧
            d.x + d.xSpeed + env.emoteX + env.emoteW > env.targetX)) := by
    intro s hsx hsy
    unfold landPhase
    rw [if_pos (show s.y + env.emoteY ≥ _ by rw [hsy]; exact hl)]
    by_cases hw : s.x + env.emoteX > env.targetX - env.emoteW ∧
        s.x + env.emoteX < env.targetX + env.targetW
    · rw [if_pos hw]
      refine ⟨rfl, ?_⟩
      constructor
      · intro _
        rw [hsx] at hw
        exact ⟨hw.2, by linarith [hw.1]⟩
      · intro _
        rfl
    · rw [if_neg hw]
      refine ⟨rfl, ?_⟩
      constructor
      · intro hfalse
        exact absurd hfalse (by simp [Dropper.handleLose, Dropper.land])
      · intro hcond
        exact absurd ⟨by rw [hsx]; linarith [hcond.2], by rw [hsx]; exact hcond.1⟩ hw
  unfold Dropper.update
  rw [if_neg (by simp [h0])]
  exact hkey _ (fall_x env deltaT d) (fall_y env deltaT d)

/-- A dropper one frame above the landing plane of `env0`, heading for
the middle of the target. -/
def d3land : Dropper :=
  { name := "finn", x := 800, y := 885, xSpeed := 4, ySpeed := 9,
    brakeHeight := 5, deployed := true, landed := false,
    cutRequested := false, cutTriggered := false, cutClock := 800,
    winner := false, dropComplete := false, deathClock := 0, dropScore := 0 }

/-- Witness for C3: the landing frame of a concrete winning dropper. -/
theorem landing_win_iff_overlap_witness :
    (Dropper.update env0 16 d3land).landed = true ∧
      ((Dropper.update env0 16 d3land).winner = true ↔
        (d3land.x + d3land.xSpeed + env0.emoteX < env0.targetX + env0.targetW ∧
          d3land.x + d3land.xSpeed + env0.emoteX + env0.emoteW > env0.targetX)) :=
  landing_win_iff_overlap env0 16 d3land rfl (by norm_num [d3land, env0])

/-! ## Claim C4: the scoring function -/

/-- Claim C4: the score is `100 * (1 - |targetCenter - hitboxCenter| /
(targetWidth/2 + hitboxWidth/2))`; it is `100` exactly when the hitbox
center coincides with the target center; on every winning landing
position (the overlap condition of the landing check) it lies in
`(0, 100]`; and it is strictly decreasing in the distance between the
two centers. -/
theorem score_properties (env : Env) (hm : 0 < maxDist env) :
    (∀ d : Dropper,
      Dropper.score env d = 100 * (1 - |midTarget env - midEmote env d| / maxDist env)) ∧
    (∀ d : Dropper, Dropper.score env d = 100 ↔ midEmote env d = midTarget env) ∧
    (∀ d : Dropper,
      (d.x + env.emoteX > env.targetX - env.emoteW ∧
        d.x + env.emoteX < env.targetX + env.targetW) →
      0 < Dropper.score env d ∧ Dropper.score env d ≤ 100) ∧
    (∀ d e : Dropper,
      |midTarget env - midEmote env d| < |midTarget env - midEmote env e| →
      Dropper.score env e < Dropper.score env d) := by
  have hm' : maxDist env ≠ 0 := ne_of_gt hm
  refine ⟨?_, ?_, ?_, ?_⟩
  · intro d
    unfold Dropper.score
    ring
  · intro d
    unfold Dropper.score
    constructor
    · intro h
      have h1 : |midTarget env - midEmote env d| / maxDist env = 0 := by linarith
      have h2 : |midTarget env - midEmote env d| = 0 := by
        rcases div_eq_zero_iff.mp h1 with h2 | h2
        · exact h2
        · exact absurd h2 hm'
      have h3 : midTarget env - midEmote env d = 0 := abs_eq_zero.mp h2
      linarith
    · intro h
      rw [h]
      simp
  · intro d hw
    have habs : |midTarget env - midEmote env d| < maxDist env := by
      rw [abs_lt]
      unfold midTarget midEmote maxDist at *
      constructor <;> [linarith [hw.2]; linarith [hw.1]]
    have hq1 : |midTarget env - midEmote env d| / maxDist env < 1 :=
      (div_lt_one hm).mpr habs
    have hq0 : 0 ≤ |midTarget env - midEmote env d| / maxDist env :=
      div_nonneg (abs_nonneg _) (le_of_lt hm)
    unfold Dropper.score
    constructor <;> linarith
  · intro d e hlt
    have : |midTarget env - midEmote env d| / maxDist env
        < |midTarget env - midEmote env e| / maxDist env :=
      (div_lt_div_iff_of_pos_right hm).mpr hlt
    unfold Dropper.score
    linarith

/-- A dropper whose hitbox center sits exactly on the target center of
`env0`: `x = targetX + targetW/2 - emoteW/2 - emoteX = 835`. -/
def d4center : Dropper :=
  { name := "gail", x := 835, y := 891, xSpeed := 4, ySpeed := 1,
    brakeHeight := 5, deployed := true, landed := true,
    cutRequested := false, cutTriggered := false, cutClock := 800,
    winner := true, dropComplete := false, deathClock := 0, dropScore := 0 }

/-- Witness for C4: the perfectly centered dropper scores exactly 100. -/
theorem score_properties_witness : Dropper.score env0 d4center = 100 :=
  ((score_properties env0 (by norm_num [maxDist, env0])).2.1 d4center).mpr
    (by norm_num [midEmote, midTarget, d4center, env0])

/-! ## Claim C7: the cut command -/

/-- Claim C7 (amended): `cut_chute()` leaves the dropper unchanged iff
a cut was already requested or the dropper sits below the cut lockout
(`y > Config.CutLockout`); in those rejection cases the buzz cue fires
only when the dropper has not yet landed (a landed dropper's rejection
is silent).  In every other case — including a dropper that has
already landed but has `cutRequested = false` and `y ≤ CutLockout` —
the call marks `cutRequested = true` and plays the snip cue.  Having
landed is not by itself a rejection cause. -/
theorem cut_chute_cases (cfg : Config) (d : Dropper) :
    (d.cutRequested = true ∨ d.y > cfg.CutLockout →
      Dropper.cut_chute cfg d = (d, if d.landed = false then [Sound.buzz] else [])) ∧
    (d.cutRequested = false → d.y ≤ cfg.CutLockout →
      Dropper.cut_chute cfg d = ({ d with cutRequested := true }, [Sound.snip])) := by
  constructor
  · intro h
    unfold Dropper.cut_chute
    rw [if_pos h]
  · intro h1 h2
    unfold Dropper.cut_chute
    rw [if_neg]
    rintro (hc | hy)
    · rw [h1] at hc
      cases hc
    · exact absurd hy (not_lt.mpr h2)

/-- A landed dropper above the lockout height with no cut requested. -/
def d7cex : Dropper :=
  { name := "erin", x := 500, y := 891, xSpeed := 4, ySpeed := 1,
    brakeHeight := 5, deployed := true, landed := true,
    cutRequested := false, cutTriggered := false, cutClock := 800,
    winner := false, dropComplete := false, deathClock := 0, dropScore := 55 }

/-- Claim C7 counterexample: with the shipped `CutLockout = 1080` a
dropper that has already landed (at `y = 891 ≤ 1080`, with
`cutRequested = false`) is NOT rejected: the call flips `cutRequested`
to `true` and plays the snip cue, while the claim says a landed
dropper's state is left unchanged and the rejection cue fires. -/
theorem cut_chute_landed_cex :
    d7cex.landed = true ∧ d7cex.cutRequested = false ∧
      d7cex.y ≤ theConfig.CutLockout ∧
      (Dropper.cut_chute theConfig d7cex).1.cutRequested = true ∧
      (Dropper.cut_chute theConfig d7cex).2 = [Sound.snip] := by
  have hcc : Dropper.cut_chute theConfig d7cex
      = ({ d7cex with cutRequested := true }, [Sound.snip]) := by
    unfold Dropper.cut_chute
    rw [if_neg]
    rintro (hc | hy)
    · exact absurd hc (by simp [d7cex])
    · exact absurd hy (by norm_num [d7cex, theConfig])
  refine ⟨rfl, rfl, by norm_num [d7cex, theConfig], ?_, ?_⟩
  · rw [hcc]
  · rw [hcc]

/-- A rejected cut: the cut was already requested mid-fall. -/
def d7rej : Dropper :=
  { name := "hank", x := 500, y := 300, xSpeed := 4, ySpeed := 6,
    brakeHeight := 5, deployed := true, landed := false,
    cutRequested := true, cutTriggered := false, cutClock := 800,
    winner := false, dropComplete := false, deathClock := 0, dropScore := 0 }

/-- Witness for the amended C7: a repeated cut request is rejected with
the buzz cue and no state change. -/
theorem cut_chute_cases_witness :
    Dropper.cut_chute theConfig d7rej
      = (d7rej, if d7rej.landed = false then [Sound.buzz] else []) :=
  (cut_chute_cases theConfig d7rej).1 (Or.inl rfl)

/-! ## Claim C8: the engine's duplicate-name spawn rejection

The engine-level view of a sprite keeps only the fields `drop` reads or
that affect list membership: the `name` (the target has none), the
`dead` flag (set by `kill()` between frames and honoured by the render
pass, which splices dead sprites out), and whether the sprite currently
sits in `target.droppers` (read by the idle check and killed by
`stopRenderLoop`).  A sprite's `update(deltaT)` call never changes any
of these three fields — `ParachuteDropper.update` writes neither `name`
nor `dead`, and `Target.update` does not touch the engine's sprite
list — so the per-sprite updates of a render pass are the identity in
this view and only the dead-splice remains. -/
structure EngineSprite where
  name : Option String
  dead : Bool
  onTarget : Bool
deriving DecidableEq

/-- The engine state `drop` interacts with: the `running` flag, the
idle-time accumulator, the active sprite list (`this.sprites`), the
name suffix for placeholder names, and the entity pool (only its size
matters here, since a reused dropper is fully re-randomized). -/
structure Engine where
  running : Bool
  idleTime : ℚ
  sprites : List EngineSprite
  nameSuffix : Nat
  pool : Nat
deriving DecidableEq

/-- `DropEngine.stopRenderLoop`: kills every dropper sitting on the
target (`kill()` pools it and flags it dead; it stays in the sprite
list until the next render pass splices it), empties
`target.droppers`, and clears the running flag.  The target's fade-out
classes are visual. -/
def stopRenderLoop (e : Engine) : Engine :=
  { e with
    running := false
    pool := e.pool + (e.sprites.filter (fun s => s.onTarget)).length
    sprites := e.sprites.map
      (fun s => if s.onTarget then { s with dead := true, onTarget := false } else s) }

/-- One synchronous `DropEngine.renderLoop` invocation, in the
engine-level view: the idle check (which may stop the loop), the
update-and-splice pass over the sprites (identity on the view except
for splicing dead sprites), and the idle-time bookkeeping (`deltaT` is
the wall-clock delta of the frame; frame-rate diagnostics are not
modelled; the `requestAnimationFrame` rescheduling is asynchronous and
outside a single invocation). -/
def renderLoopOnce (cfg : Config) (deltaT : ℚ) (e : Engine) : Engine :=
  let e1 := if cfg.IdleTime ≠ 0 ∧ e.idleTime ≥ cfg.IdleTime then stopRenderLoop e else e
  let sprites := e1.sprites.filter (fun s => !s.dead)
  let onT := (sprites.filter (fun s => s.onTarget)).length
  let idle :=
    if sprites.length = 1 ∨ (sprites.length = 2 ∧ onT = 1) then e1.idleTime + deltaT else 0
  { e1 with
    sprites := sprites
    idleTime := if e1.running = true then idle else 0 }

/-- `DropEngine.startRenderLoop`: sets `running` and makes the initial
synchronous `renderLoop()` call (`deltaT` is that first frame's
wall-clock delta, nearly 0 since the frame clock was just reset).
Repositioning the target and its fade-in classes are visual. -/
def startRenderLoop (cfg : Config) (deltaT : ℚ) (e : Engine) : Engine :=
  renderLoopOnce cfg deltaT { e with running := true }

/-- The tail of `DropEngine.drop` after the name is resolved: if any
active sprite already carries the name, return with no change;
otherwise take a dropper from the pool (or construct one when the pool
is empty — either way it is freshly randomized, alive, and not on the
target) and append it to the sprite list.  The emote-override branch
is visual. -/
def dropWithName (name : String) (e : Engine) : Engine :=
  if e.sprites.any (fun s => s.name == some name) then e
  else
    { e with
      pool := if e.pool = 0 then e.pool else e.pool - 1
      sprites := e.sprites ++ [{ name := some name, dead := false, onTarget := false }] }

/-- `DropEngine.drop(name)`: start the render loop if it is not
running (a synchronous restart frame), resolve the placeholder name,
then run the duplicate check and spawn. -/
def DropEngine.drop (cfg : Config) (deltaT : ℚ) (name? : Option String) (e0 : Engine) : Engine :=
  let e := if e0.running = false then startRenderLoop cfg deltaT e0 else e0
  dropWithName (name?.getD ("SampleNickGoesHere" ++ toString e.nameSuffix)) e

/-- Claim C8 (amended): while the render loop is running, a `drop`
whose name is already carried by some sprite in the active list is a
complete no-op: the engine state — in particular the sprite collection
and the pool — is unchanged.  (When the loop is stopped, the
synchronous restart frame first splices out dead sprites, so a dead
sprite bearing the name no longer blocks the spawn; see the
counterexample.) -/
theorem drop_duplicate_noop (cfg : Config) (deltaT : ℚ) (name : String)
    (e : Engine) (hr : e.running = true)
    (hdup : ∃ s ∈ e.sprites, s.name = some name) :
    DropEngine.drop cfg deltaT (some name) e = e := by
  unfold DropEngine.drop
  rw [if_neg (by simp [hr])]
  show dropWithName name e = e
  unfold dropWithName
  rw [if_pos]
  obtain ⟨s, hs, hname⟩ := hdup
  exact List.any_eq_true.mpr ⟨s, hs, by simp [hname]⟩

/-- The target sprite in the engine-level view: it has no `name`
field. -/
def targetSprite : EngineSprite := { name := none, dead := false, onTarget := false }

/-- A running engine with a live dropper named `bob` on the list. -/
def e8run : Engine :=
  { running := true
    idleTime := 0
    sprites := [targetSprite, { name := some "bob", dead := false, onTarget := false }]
    nameSuffix := 1
    pool := 2 }

/-- Witness for the amended C8 at a concrete running engine. -/
theorem drop_duplicate_noop_witness :
    DropEngine.drop theConfig 0 (some "bob") e8run = e8run :=
  drop_duplicate_noop theConfig 0 "bob" e8run rfl
    ⟨{ name := some "bob", dead := false, onTarget := false }, by decide, rfl⟩

/-- A stopped engine whose sprite list still carries two dead droppers
(the state `stopRenderLoop` leaves behind before the next render pass
splices them). -/
def e8cex : Engine :=
  { running := false
    idleTime := 0
    sprites := [targetSprite,
      { name := some "bob", dead := true, onTarget := false },
      { name := some "alice", dead := true, onTarget := false }]
    nameSuffix := 1
    pool := 2 }

/-- Claim C8 counterexample: an engine state whose active sprite list
carries an entity named `bob`, where `drop("bob")` does NOT leave the
active-entity collection unchanged: the loop is stopped, so the
restart's synchronous render pass splices the dead `bob` (and `alice`)
out before the duplicate check, a new dropper is taken from the pool
and appended, and the active-entity count changes from 3 to 2. -/
theorem drop_duplicate_cex :
    (e8cex.sprites.any (fun s => s.name == some "bob") = true) ∧
      (DropEngine.drop theConfig 0 (some "bob") e8cex).sprites.length ≠
        e8cex.sprites.length ∧
      DropEngine.drop theConfig 0 (some "bob") e8cex ≠ e8cex := by
  refine ⟨by decide, ?_, ?_⟩ <;>
    · norm_num [DropEngine.drop, startRenderLoop, renderLoopOnce, stopRenderLoop,
        dropWithName, e8cex, targetSprite, theConfig, List.filter, List.any]
